import Mathlib

/-
Shallow embedding of the task-resolution engine of the mynth-sdk repository
(src/task-async.ts, with the credential handling of src/types.ts MynthClient
and the Task wrapper of src/task.ts).

Time is measured in milliseconds and advances only at the sleep step, which is
how the polling loop itself accounts for it (Date.now() is sampled once per
iteration).  Network responses, jitter values and task records are supplied by
an explicit environment; the loop is driven by a fuel parameter and returns
none when the fuel runs out.  Every network call and sleep is recorded in an
event trace so that scheduling and credential claims can be stated.
-/

namespace MynthSDK

/-! ## Constants (src/task-async.ts lines 6-10) -/

def POLLING_TIMEOUT_MS : Nat := 1000 * 60 * 5

def FAST_POLLING_DURATION_MS : Nat := 12000

def FAST_POLLING_INTERVAL_MS : Nat := 2500

def SLOW_POLLING_INTERVAL_MS : Nat := 5000

def MAX_RETRY_COUNT : Nat := 7

/-! ## Data model -/

/-- Lifecycle status of a task (types.ts: `"pending" | "completed" | "failed"`). -/
inductive TaskStatus where
  | pending
  | completed
  | failed
deriving DecidableEq

/-- Full task record returned by the details endpoint (types.ts `TaskData`);
only the fields the resolution engine observes are kept, the rest of the
record is abstracted as an opaque payload carried verbatim. -/
structure TaskData where
  id : String
  status : TaskStatus
  payload : String
deriving DecidableEq

/-- Wrapper produced on completion (task.ts `Task`): it stores the raw data. -/
structure Task where
  data : TaskData
deriving DecidableEq

/-- task.ts: `get id() { return this.data.id }`. -/
def Task.id (t : Task) : String := t.data.id

/-- Outcome of `client.get` on the status endpoint: either an HTTP response
(`ok` flag, numeric status code, parsed body) or a thrown transport error. -/
inductive GetStatusOutcome where
  | resp (ok : Bool) (status : Nat) (data : TaskStatus)
  | thrown (e : String)
deriving DecidableEq

/-- Response of `client.get` on the task-details endpoint. -/
structure GetResp where
  ok : Bool
  status : Nat
  data : TaskData
deriving DecidableEq

/-- task-async.ts `FetchStatusResult`:
`{ ok: true; status } | { ok: false; unauthorized; retryable; error? }`. -/
inductive FetchStatusResult where
  | ok (status : TaskStatus)
  | err (unauthorized : Bool) (retryable : Bool) (error : Option String)
deriving DecidableEq

/-- Classified failure outcomes of a resolution
(the five error classes of task-async.ts). -/
inductive PollError where
  | timeout
  | unauthorized
  | fetchError (cause : Option String)
  | taskFailed
  | taskFetchError (status : Nat)
deriving DecidableEq

/-- Observable events of one resolution: each status check (with its call
index, the task id of the path, and the bearer token sent), each sleep with
its duration, and the final full fetch with the token it sent. -/
inductive Event where
  | statusCall (idx : Nat) (taskId : String) (token : String)
  | sleep (ms : Nat)
  | fullFetch (taskId : String) (token : String)
deriving DecidableEq

/-! ## Credential selection -/

/-- JavaScript truthiness of the optional public access token
(an absent or empty string is falsy). -/
def patPresent (pat : Option String) : Bool :=
  match pat with
  | none => false
  | some s => !(s == "")

/-- task-async.ts lines 198-201: the access-token override passed to
`client.get` on a status check. -/
def statusAccessToken (pat : Option String) (useApiKey : Bool) : Option String :=
  if useApiKey || !patPresent pat then none else pat

/-- types.ts `getAuthHeaders`: the bearer token actually sent is the override
when given, the client api key otherwise (`accessToken ?? this.apiKey`). -/
def getAuthHeaderToken (apiKey : String) (accessToken : Option String) : String :=
  accessToken.getD apiKey

/-- The bearer token a status check sends: the composition of the
access-token selection of `fetchStatus` with `getAuthHeaders`. -/
def statusBearer (pat : Option String) (apiKey : String) (fallback : Bool) : String :=
  getAuthHeaderToken apiKey (statusAccessToken pat fallback)

/-! ## Response classification -/

/-- task-async.ts `fetchStatus` lines 203-239: classification of one
status-check response into the `FetchStatusResult` union. -/
def classifyStatusResponse (o : GetStatusOutcome) : FetchStatusResult :=
  match o with
  | .resp ok status data =>
    if ok then .ok data
    else if status == 401 || status == 403 then .err true false none
    else if status == 404 then .err true false none
    else if 500 ≤ status then .err false true none
    else .err false false none
  | .thrown e => .err false true (some e)

/-- task-async.ts `fetchTask` lines 247-259: the full fetch returns the record
on success, throws Unauthorized on 401/403/404, TaskFetchError otherwise. -/
def fetchTaskResult (r : GetResp) : Except PollError Task :=
  if r.ok then .ok ⟨r.data⟩
  else if r.status == 401 || r.status == 403 then .error .unauthorized
  else if r.status == 404 then .error .unauthorized
  else .error (.taskFetchError r.status)

/-! ## The polling loop -/

/-- Environment driving one resolution: the status-check response for each
call index (given the task id of the request path and the bearer token sent),
the details-endpoint response (given task id and bearer token), and the
jitter drawn at each call index. -/
structure PollEnv where
  statusResp : Nat → String → String → GetStatusOutcome
  fetchResp : String → String → GetResp
  jitter : Nat → Nat

/-- Loop-local state of `pollUntilCompleted`: elapsed milliseconds since the
first iteration, the consecutive-retryable-failure counter, the credential
fallback flag, the last transient error, and the index of the next call. -/
structure LoopState where
  elapsed : Nat
  retryCount : Nat
  useApiKeyFallback : Bool
  lastError : Option String
  callIdx : Nat
deriving DecidableEq

/-- State at the first iteration (task-async.ts lines 135-138). -/
def initState : LoopState :=
  { elapsed := 0, retryCount := 0, useApiKeyFallback := false
    lastError := none, callIdx := 0 }

instance {ε α : Type} [DecidableEq ε] [DecidableEq α] : DecidableEq (Except ε α) :=
  fun x y =>
  match x, y with
  | .ok a, .ok b =>
    if h : a = b then .isTrue (by rw [h])
    else .isFalse (by intro hh; cases hh; exact h rfl)
  | .ok _, .error _ => .isFalse (by intro hh; cases hh)
  | .error _, .ok _ => .isFalse (by intro hh; cases hh)
  | .error a, .error b =>
    if h : a = b then .isTrue (by rw [h])
    else .isFalse (by intro hh; cases hh; exact h rfl)

/-- Result of one loop iteration: a terminal outcome or the next state. -/
inductive StepResult where
  | done (r : Except PollError Task)
  | next (st : LoopState)
deriving DecidableEq

/-- task-async.ts lines 181-191: the jittered interval is computed from the
elapsed time sampled at the top of the iteration and capped by the remaining
time before the deadline. -/
def sleepWait (env : PollEnv) (st : LoopState) : Nat :=
  let base := if st.elapsed < FAST_POLLING_DURATION_MS then
    FAST_POLLING_INTERVAL_MS else SLOW_POLLING_INTERVAL_MS
  let interval := base + env.jitter st.callIdx
  let remainingTime := POLLING_TIMEOUT_MS - st.elapsed
  min interval remainingTime

/-- task-async.ts lines 181-193: sleep for the capped interval, then loop. -/
def sleepContinue (env : PollEnv) (st : LoopState) (evs : List Event) :
    StepResult × List Event :=
  let waitTime := sleepWait env st
  (.next { st with elapsed := st.elapsed + waitTime, callIdx := st.callIdx + 1 },
    evs ++ [.sleep waitTime])

/-- One iteration of the `while (true)` loop of `pollUntilCompleted`
(task-async.ts lines 140-194). -/
def pollIteration (env : PollEnv) (taskId : String) (pat : Option String)
    (apiKey : String) (st : LoopState) : StepResult × List Event :=
  if POLLING_TIMEOUT_MS ≤ st.elapsed then
    (.done (.error .timeout), [])
  else
    let token := statusBearer pat apiKey st.useApiKeyFallback
    let callEv : List Event := [.statusCall st.callIdx taskId token]
    match classifyStatusResponse (env.statusResp st.callIdx taskId token) with
    | .ok s =>
      let st1 := { st with retryCount := 0 }
      match s with
      | .completed =>
        let ftoken := getAuthHeaderToken apiKey none
        (.done (fetchTaskResult (env.fetchResp taskId ftoken)),
          callEv ++ [.fullFetch taskId ftoken])
      | .failed => (.done (.error .taskFailed), callEv)
      | .pending => sleepContinue env st1 callEv
    | .err ua rt er =>
      if ua then
        if patPresent pat && !st.useApiKeyFallback then
          (.next { st with useApiKeyFallback := true, callIdx := st.callIdx + 1 },
            callEv)
        else
          (.done (.error .unauthorized), callEv)
      else if rt then
        let st1 := { st with retryCount := st.retryCount + 1, lastError := er }
        if MAX_RETRY_COUNT ≤ st1.retryCount then
          (.done (.error (.fetchError st1.lastError)), callEv)
        else
          sleepContinue env st1 callEv
      else
        sleepContinue env st callEv

/-- Fuel-driven unfolding of the polling loop; `none` means the fuel ran out
before the loop terminated.  The trace collects the events of every
iteration in order. -/
def pollLoop (env : PollEnv) (taskId : String) (pat : Option String)
    (apiKey : String) : Nat → LoopState → Option (Except PollError Task × List Event)
  | 0, _ => none
  | fuel + 1, st =>
    match pollIteration env taskId pat apiKey st with
    | (.done r, evs) => some (r, evs)
    | (.next st1, evs) =>
      (pollLoop env taskId pat apiKey fuel st1).map (fun p => (p.1, evs ++ p.2))

/-- task-async.ts `pollUntilCompleted`: run the loop from the initial state. -/
def pollUntilCompleted (env : PollEnv) (taskId : String) (pat : Option String)
    (apiKey : String) (fuel : Nat) : Option (Except PollError Task × List Event) :=
  pollLoop env taskId pat apiKey fuel initState

/-- Memoization cell of the handle: `_completionPromise` starts out null and
is filled with the (settled) polling outcome by the first resolution
request (task-async.ts lines 94-95, 125-132). -/
structure TaskAsyncState where
  completionPromise : Option (Option (Except PollError Task × List Event))
deriving DecidableEq

/-- task-async.ts `toTask`: if the promise cell is filled, return the stored
outcome and issue nothing; otherwise start polling, store the outcome, and
return it.  The second component is the list of events newly issued by this
call. -/
def toTask (env : PollEnv) (taskId : String) (pat : Option String)
    (apiKey : String) (fuel : Nat) (h : TaskAsyncState) :
    Option (Except PollError Task × List Event) × List Event × TaskAsyncState :=
  match h.completionPromise with
  | some p => (p, [], h)
  | none =>
    let p := pollUntilCompleted env taskId pat apiKey fuel
    (p, (p.map fun r => r.2).getD [], ⟨some p⟩)

/-! ## Concrete environments used to witness the theorems -/

/-- Environment whose status endpoint always throws a network error. -/
def envC1 : PollEnv where
  statusResp := fun _ _ _ => .thrown "connection reset"
  fetchResp := fun tid _ => ⟨true, 200, ⟨tid, .completed, "payload"⟩⟩
  jitter := fun _ => 0

/-- Environment whose status endpoint always answers 401. -/
def envC2 : PollEnv where
  statusResp := fun _ _ _ => .resp false 401 .pending
  fetchResp := fun tid _ => ⟨true, 200, ⟨tid, .completed, "payload"⟩⟩
  jitter := fun _ => 0

/-- Environment whose status endpoint always reports a pending task. -/
def envPend : PollEnv where
  statusResp := fun _ _ _ => .resp true 200 .pending
  fetchResp := fun tid _ => ⟨true, 200, ⟨tid, .completed, "payload"⟩⟩
  jitter := fun _ => 0

/-- Environment of the counter-reset scenario: five retryable failures, one
pending success, five more retryable failures, then completed. -/
def envC4 : PollEnv where
  statusResp := fun i _ _ =>
    if i < 5 then .thrown "boom"
    else if i == 5 then .resp true 200 .pending
    else if i < 11 then .thrown "boom"
    else .resp true 200 .completed
  fetchResp := fun tid _ => ⟨true, 200, ⟨tid, .completed, "img"⟩⟩
  jitter := fun _ => 0

/-- Environment whose status endpoint reports a failed task. -/
def envC6 : PollEnv where
  statusResp := fun _ _ _ => .resp true 200 .failed
  fetchResp := fun tid _ => ⟨true, 200, ⟨tid, .completed, "payload"⟩⟩
  jitter := fun _ => 0

/-- Record returned with a 404 by the full fetch of `envC7`. -/
def dC7 : TaskData := ⟨"t1", .completed, "gone"⟩

/-- Environment that completes at once but answers 404 on the full fetch. -/
def envC7 : PollEnv where
  statusResp := fun _ _ _ => .resp true 200 .completed
  fetchResp := fun _ _ => ⟨false, 404, dC7⟩
  jitter := fun _ => 0

/-- Environment whose status endpoint always answers 400. -/
def env400 : PollEnv where
  statusResp := fun _ _ _ => .resp false 400 .pending
  fetchResp := fun tid _ => ⟨true, 200, ⟨tid, .completed, "payload"⟩⟩
  jitter := fun _ => 0

/-- Environment that completes at once; the details endpoint echoes the
requested task id back in the record. -/
def envC9 : PollEnv where
  statusResp := fun _ _ _ => .resp true 200 .completed
  fetchResp := fun tid _ => ⟨true, 200, ⟨tid, .completed, "p"⟩⟩
  jitter := fun _ => 0

/-- Environment whose status endpoint only accepts the public token "pub"
(completing at once) and whose details endpoint rejects the api key "key". -/
def envC10 : PollEnv where
  statusResp := fun _ _ tok =>
    if tok == "pub" then .resp true 200 .completed else .resp false 401 .pending
  fetchResp := fun tid tok =>
    if tok == "key" then ⟨false, 401, ⟨tid, .completed, "x"⟩⟩
    else ⟨true, 200, ⟨tid, .completed, "x"⟩⟩
  jitter := fun _ => 0

/-! ## Basic lemmas about one iteration -/

theorem sleepWait_eq (env : PollEnv) (st : LoopState) :
    sleepWait env st =
      min ((if st.elapsed < FAST_POLLING_DURATION_MS then FAST_POLLING_INTERVAL_MS
        else SLOW_POLLING_INTERVAL_MS) + env.jitter st.callIdx)
        (POLLING_TIMEOUT_MS - st.elapsed) := rfl

theorem sleepWait_le_remaining (env : PollEnv) (st : LoopState)
    (h : st.elapsed ≤ POLLING_TIMEOUT_MS) :
    st.elapsed + sleepWait env st ≤ POLLING_TIMEOUT_MS := by
  rw [sleepWait_eq]
  omega

theorem sleepWait_le_of_jitter (env : PollEnv) (st : LoopState)
    (h : env.jitter st.callIdx ≤ 500) :
    sleepWait env st ≤ 5500 := by
  rw [sleepWait_eq]
  have h1 : FAST_POLLING_INTERVAL_MS = 2500 := rfl
  have h2 : SLOW_POLLING_INTERVAL_MS = 5000 := rfl
  split <;> omega

theorem sleepContinue_eq (env : PollEnv) (st : LoopState) (evs : List Event) :
    sleepContinue env st evs =
      (.next { st with elapsed := st.elapsed + sleepWait env st, callIdx := st.callIdx + 1 },
        evs ++ [.sleep (sleepWait env st)]) := rfl

theorem pollIteration_timeout (env : PollEnv) (taskId : String) (pat : Option String)
    (apiKey : String) (st : LoopState) (ht : POLLING_TIMEOUT_MS ≤ st.elapsed) :
    pollIteration env taskId pat apiKey st = (.done (.error .timeout), []) := by
  unfold pollIteration
  rw [if_pos ht]

theorem pollIteration_pending (env : PollEnv) (taskId : String) (pat : Option String)
    (apiKey : String) (st : LoopState)
    (ht : ¬ POLLING_TIMEOUT_MS ≤ st.elapsed)
    (hc : classifyStatusResponse (env.statusResp st.callIdx taskId
        (statusBearer pat apiKey st.useApiKeyFallback)) = .ok .pending) :
    pollIteration env taskId pat apiKey st =
      sleepContinue env { st with retryCount := 0 }
        [.statusCall st.callIdx taskId (statusBearer pat apiKey st.useApiKeyFallback)] := by
  unfold pollIteration
  rw [if_neg ht]
  simp only [hc]

theorem pollIteration_completed (env : PollEnv) (taskId : String) (pat : Option String)
    (apiKey : String) (st : LoopState)
    (ht : ¬ POLLING_TIMEOUT_MS ≤ st.elapsed)
    (hc : classifyStatusResponse (env.statusResp st.callIdx taskId
        (statusBearer pat apiKey st.useApiKeyFallback)) = .ok .completed) :
    pollIteration env taskId pat apiKey st =
      (.done (fetchTaskResult (env.fetchResp taskId apiKey)),
        [.statusCall st.callIdx taskId (statusBearer pat apiKey st.useApiKeyFallback),
         .fullFetch taskId apiKey]) := by
  unfold pollIteration
  rw [if_neg ht]
  simp only [hc]
  rfl

theorem pollIteration_failed (env : PollEnv) (taskId : String) (pat : Option String)
    (apiKey : String) (st : LoopState)
    (ht : ¬ POLLING_TIMEOUT_MS ≤ st.elapsed)
    (hc : classifyStatusResponse (env.statusResp st.callIdx taskId
        (statusBearer pat apiKey st.useApiKeyFallback)) = .ok .failed) :
    pollIteration env taskId pat apiKey st =
      (.done (.error .taskFailed),
        [.statusCall st.callIdx taskId (statusBearer pat apiKey st.useApiKeyFallback)]) := by
  unfold pollIteration
  rw [if_neg ht]
  simp only [hc]

theorem pollIteration_unauthorized_fallback (env : PollEnv) (taskId : String)
    (pat : Option String) (apiKey : String) (st : LoopState)
    (ht : ¬ POLLING_TIMEOUT_MS ≤ st.elapsed)
    (hc : classifyStatusResponse (env.statusResp st.callIdx taskId
        (statusBearer pat apiKey st.useApiKeyFallback)) = .err true false none)
    (hp : patPresent pat = true) (hf : st.useApiKeyFallback = false) :
    pollIteration env taskId pat apiKey st =
      (.next { st with useApiKeyFallback := true, callIdx := st.callIdx + 1 },
        [.statusCall st.callIdx taskId (statusBearer pat apiKey st.useApiKeyFallback)]) := by
  unfold pollIteration
  rw [if_neg ht]
  simp only [hf] at hc ⊢
  simp only [hc, hp]
  rfl

theorem pollIteration_unauthorized_fail (env : PollEnv) (taskId : String)
    (pat : Option String) (apiKey : String) (st : LoopState)
    (ht : ¬ POLLING_TIMEOUT_MS ≤ st.elapsed)
    (hc : classifyStatusResponse (env.statusResp st.callIdx taskId
        (statusBearer pat apiKey st.useApiKeyFallback)) = .err true false none)
    (hp : patPresent pat = false ∨ st.useApiKeyFallback = true) :
    pollIteration env taskId pat apiKey st =
      (.done (.error .unauthorized),
        [.statusCall st.callIdx taskId (statusBearer pat apiKey st.useApiKeyFallback)]) := by
  unfold pollIteration
  rw [if_neg ht]
  simp only [hc]
  rcases hp with hp | hp <;> simp [hp]

theorem pollIteration_retryable_cap (env : PollEnv) (taskId : String)
    (pat : Option String) (apiKey : String) (st : LoopState) (er : Option String)
    (ht : ¬ POLLING_TIMEOUT_MS ≤ st.elapsed)
    (hc : classifyStatusResponse (env.statusResp st.callIdx taskId
        (statusBearer pat apiKey st.useApiKeyFallback)) = .err false true er)
    (hr : MAX_RETRY_COUNT ≤ st.retryCount + 1) :
    pollIteration env taskId pat apiKey st =
      (.done (.error (.fetchError er)),
        [.statusCall st.callIdx taskId (statusBearer pat apiKey st.useApiKeyFallback)]) := by
  unfold pollIteration
  rw [if_neg ht]
  simp only [hc]
  simp [hr]

theorem pollIteration_retryable_under (env : PollEnv) (taskId : String)
    (pat : Option String) (apiKey : String) (st : LoopState) (er : Option String)
    (ht : ¬ POLLING_TIMEOUT_MS ≤ st.elapsed)
    (hc : classifyStatusResponse (env.statusResp st.callIdx taskId
        (statusBearer pat apiKey st.useApiKeyFallback)) = .err false true er)
    (hr : ¬ MAX_RETRY_COUNT ≤ st.retryCount + 1) :
    pollIteration env taskId pat apiKey st =
      sleepContinue env { st with retryCount := st.retryCount + 1, lastError := er }
        [.statusCall st.callIdx taskId (statusBearer pat apiKey st.useApiKeyFallback)] := by
  unfold pollIteration
  rw [if_neg ht]
  simp only [hc]
  simp [hr]

theorem pollIteration_nonretryable (env : PollEnv) (taskId : String)
    (pat : Option String) (apiKey : String) (st : LoopState) (er : Option String)
    (ht : ¬ POLLING_TIMEOUT_MS ≤ st.elapsed)
    (hc : classifyStatusResponse (env.statusResp st.callIdx taskId
        (statusBearer pat apiKey st.useApiKeyFallback)) = .err false false er) :
    pollIteration env taskId pat apiKey st =
      sleepContinue env st
        [.statusCall st.callIdx taskId (statusBearer pat apiKey st.useApiKeyFallback)] := by
  unfold pollIteration
  rw [if_neg ht]
  simp only [hc]
  rfl

/-! ## Basic lemmas about the loop -/

theorem pollLoop_done (env : PollEnv) (taskId : String) (pat : Option String)
    (apiKey : String) (fuel : Nat) (st : LoopState) (r : Except PollError Task)
    (evs : List Event)
    (h : pollIteration env taskId pat apiKey st = (.done r, evs)) :
    pollLoop env taskId pat apiKey (fuel + 1) st = some (r, evs) := by
  simp only [pollLoop, h]

theorem pollLoop_next (env : PollEnv) (taskId : String) (pat : Option String)
    (apiKey : String) (fuel : Nat) (st st1 : LoopState) (evs : List Event)
    (h : pollIteration env taskId pat apiKey st = (.next st1, evs)) :
    pollLoop env taskId pat apiKey (fuel + 1) st =
      (pollLoop env taskId pat apiKey fuel st1).map (fun p => (p.1, evs ++ p.2)) := by
  simp only [pollLoop, h]

theorem pollLoop_fst_next (env : PollEnv) (taskId : String) (pat : Option String)
    (apiKey : String) (fuel : Nat) (st st1 : LoopState) (evs : List Event)
    (h : pollIteration env taskId pat apiKey st = (.next st1, evs)) :
    (pollLoop env taskId pat apiKey (fuel + 1) st).map Prod.fst =
      (pollLoop env taskId pat apiKey fuel st1).map Prod.fst := by
  rw [pollLoop_next env taskId pat apiKey fuel st st1 evs h]
  cases pollLoop env taskId pat apiKey fuel st1 <;> rfl

/-! ## Helper inductions -/

/-- When every status response leads to the sleep-and-continue path (a
pending success, or a non-retryable non-unauthorized failure), enough fuel
drives the loop to the deadline, where it fails with the timeout error. -/
theorem pollLoop_timeout_of_continue (env : PollEnv) (taskId : String)
    (pat : Option String) (apiKey : String)
    (henv : ∀ i tok,
      classifyStatusResponse (env.statusResp i taskId tok) = .ok .pending ∨
      classifyStatusResponse (env.statusResp i taskId tok) = .err false false none) :
    ∀ fuel st, 1 ≤ fuel →
      POLLING_TIMEOUT_MS ≤ st.elapsed + FAST_POLLING_INTERVAL_MS * (fuel - 1) →
      (pollLoop env taskId pat apiKey fuel st).map Prod.fst =
        some (.error .timeout) := by
  intro fuel
  induction fuel with
  | zero => intro st h1 _; omega
  | succ f ih =>
    intro st _ h2
    have e1 : FAST_POLLING_INTERVAL_MS = 2500 := rfl
    have e3 : POLLING_TIMEOUT_MS = 300000 := rfl
    by_cases ht : POLLING_TIMEOUT_MS ≤ st.elapsed
    · rw [pollLoop_done env taskId pat apiKey f st _ _
        (pollIteration_timeout env taskId pat apiKey st ht)]
      rfl
    · have hw2 : min 2500 (POLLING_TIMEOUT_MS - st.elapsed) ≤ sleepWait env st := by
        rw [sleepWait_eq]
        have e2 : SLOW_POLLING_INTERVAL_MS = 5000 := rfl
        split <;> omega
      have key : ∀ st1 evs, st1.elapsed = st.elapsed + sleepWait env st →
          pollIteration env taskId pat apiKey st = (.next st1, evs) →
          (pollLoop env taskId pat apiKey (f + 1) st).map Prod.fst =
            some (.error .timeout) := by
        intro st1 evs he hit
        rw [pollLoop_fst_next env taskId pat apiKey f st st1 evs hit]
        apply ih st1
        · simp only [e1, e3] at h2 ⊢
          omega
        · rw [he]
          simp only [e1, e3] at h2 ⊢
          omega
      rcases henv st.callIdx (statusBearer pat apiKey st.useApiKeyFallback) with hc | hc
      · have hit := pollIteration_pending env taskId pat apiKey st ht hc
        rw [sleepContinue_eq] at hit
        exact key _ _ rfl hit
      · have hit := pollIteration_nonretryable env taskId pat apiKey st none ht hc
        rw [sleepContinue_eq] at hit
        exact key _ _ rfl hit

/-- From a state whose consecutive-failure counter needs `m + 1` more
retryable failures to reach the cap, `m + 1` consecutive retryable responses
(with no intervening success) end the resolution with `FetchError` carrying
the error context of the most recent failure, provided the deadline stays
ahead of the sleeps. -/
theorem pollLoop_fetchError_of_retryable (env : PollEnv) (taskId : String)
    (pat : Option String) (apiKey : String) (e : Nat → Option String)
    (hjit : ∀ i, env.jitter i ≤ 500) :
    ∀ m st fuel,
      (m + 1) + st.retryCount = MAX_RETRY_COUNT →
      (∀ k, k < m + 1 → classifyStatusResponse (env.statusResp (st.callIdx + k) taskId
        (statusBearer pat apiKey st.useApiKeyFallback)) = .err false true (e (st.callIdx + k))) →
      st.elapsed + 5500 * m < POLLING_TIMEOUT_MS →
      m + 1 ≤ fuel →
      (pollLoop env taskId pat apiKey fuel st).map Prod.fst =
        some (.error (.fetchError (e (st.callIdx + m)))) := by
  intro m
  induction m with
  | zero =>
    intro st fuel hcap hresp helapsed hfuel
    obtain ⟨f, rfl⟩ : ∃ f, fuel = f + 1 := ⟨fuel - 1, by omega⟩
    have e3 : POLLING_TIMEOUT_MS = 300000 := rfl
    have ht : ¬ POLLING_TIMEOUT_MS ≤ st.elapsed := by omega
    have hmax : MAX_RETRY_COUNT = 7 := rfl
    have hr : MAX_RETRY_COUNT ≤ st.retryCount + 1 := by omega
    rw [pollLoop_done env taskId pat apiKey f st _ _
      (pollIteration_retryable_cap env taskId pat apiKey st (e (st.callIdx + 0)) ht
        (hresp 0 (by omega)) hr)]
    rfl
  | succ n ih =>
    intro st fuel hcap hresp helapsed hfuel
    obtain ⟨f, rfl⟩ : ∃ f, fuel = f + 1 := ⟨fuel - 1, by omega⟩
    have e3 : POLLING_TIMEOUT_MS = 300000 := rfl
    have ht : ¬ POLLING_TIMEOUT_MS ≤ st.elapsed := by omega
    have hmax : MAX_RETRY_COUNT = 7 := rfl
    have hr : ¬ MAX_RETRY_COUNT ≤ st.retryCount + 1 := by omega
    have hit := pollIteration_retryable_under env taskId pat apiKey st (e (st.callIdx + 0)) ht
      (hresp 0 (by omega)) hr
    rw [sleepContinue_eq] at hit
    rw [pollLoop_fst_next env taskId pat apiKey f st _ _ hit]
    have hsw : sleepWait env st ≤ 5500 := sleepWait_le_of_jitter env st (hjit st.callIdx)
    rw [show st.callIdx + (n + 1) = st.callIdx + 1 + n from by omega]
    exact ih _ f
      (show (n + 1) + (st.retryCount + 1) = MAX_RETRY_COUNT from by omega)
      (by
        intro k hk
        have h' := hresp (k + 1) (by omega)
        rw [show st.callIdx + (k + 1) = st.callIdx + 1 + k from by omega] at h'
        exact h')
      (show st.elapsed + sleepWait env st + 5500 * n < POLLING_TIMEOUT_MS from by omega)
      (by omega)

/-- The classifier only ever produces a success, an unauthorized failure, a
retryable failure, or a non-retryable non-unauthorized failure. -/
theorem classify_cases (o : GetStatusOutcome) :
    (∃ s, classifyStatusResponse o = .ok s) ∨
    classifyStatusResponse o = .err true false none ∨
    (∃ er, classifyStatusResponse o = .err false true er) ∨
    classifyStatusResponse o = .err false false none := by
  cases o with
  | resp ok status data =>
    simp only [classifyStatusResponse]
    split_ifs <;> simp
  | thrown e =>
    right; right; left
    exact ⟨some e, rfl⟩

/-- Once the fallback flag is set, no iteration that continues the loop
unsets it. -/
theorem pollIteration_next_fallback (env : PollEnv) (taskId : String)
    (pat : Option String) (apiKey : String) (st2 st' : LoopState) (evs : List Event)
    (hpi : pollIteration env taskId pat apiKey st2 = (.next st', evs))
    (h2 : st2.useApiKeyFallback = true) : st'.useApiKeyFallback = true := by
  by_cases ht : POLLING_TIMEOUT_MS ≤ st2.elapsed
  · rw [pollIteration_timeout env taskId pat apiKey st2 ht] at hpi
    simp at hpi
  · rcases classify_cases (env.statusResp st2.callIdx taskId
      (statusBearer pat apiKey st2.useApiKeyFallback)) with ⟨s, hc⟩ | hc | ⟨er, hc⟩ | hc
    · cases s with
      | pending =>
        rw [pollIteration_pending env taskId pat apiKey st2 ht hc, sleepContinue_eq] at hpi
        simp at hpi
        obtain ⟨h', _⟩ := hpi
        subst h'
        simpa using h2
      | completed =>
        rw [pollIteration_completed env taskId pat apiKey st2 ht hc] at hpi
        simp at hpi
      | failed =>
        rw [pollIteration_failed env taskId pat apiKey st2 ht hc] at hpi
        simp at hpi
    · rw [pollIteration_unauthorized_fail env taskId pat apiKey st2 ht hc (Or.inr h2)] at hpi
      simp at hpi
    · by_cases hr : MAX_RETRY_COUNT ≤ st2.retryCount + 1
      · rw [pollIteration_retryable_cap env taskId pat apiKey st2 er ht hc hr] at hpi
        simp at hpi
      · rw [pollIteration_retryable_under env taskId pat apiKey st2 er ht hc hr,
          sleepContinue_eq] at hpi
        simp at hpi
        obtain ⟨h', _⟩ := hpi
        subst h'
        simpa using h2
    · rw [pollIteration_nonretryable env taskId pat apiKey st2 none ht hc,
        sleepContinue_eq] at hpi
      simp at hpi
      obtain ⟨h', _⟩ := hpi
      subst h'
      simpa using h2

/-- A successful full-fetch classification comes from an `ok` response and
wraps that response's record verbatim. -/
theorem fetchTaskResult_ok (r : GetResp) (t : Task)
    (h : fetchTaskResult r = .ok t) : r.ok = true ∧ t = ⟨r.data⟩ := by
  unfold fetchTaskResult at h
  split_ifs at h <;> simp_all

/-- Trace invariant of the loop: every status check is issued for the loop's
task id, the full fetch is issued for the same task id and always with the
client api key, and a successful outcome is exactly the classified full
fetch of that task id under the api key. -/
theorem pollLoop_trace_inv (env : PollEnv) (taskId : String) (pat : Option String)
    (apiKey : String) :
    ∀ fuel st out evs, pollLoop env taskId pat apiKey fuel st = some (out, evs) →
      (∀ t, out = .ok t → fetchTaskResult (env.fetchResp taskId apiKey) = .ok t) ∧
      (∀ i tid tok, .statusCall i tid tok ∈ evs → tid = taskId) ∧
      (∀ tid tok, .fullFetch tid tok ∈ evs → tid = taskId ∧ tok = apiKey) := by
  intro fuel
  induction fuel with
  | zero =>
    intro st out evs h
    simp [pollLoop] at h
  | succ f ih =>
    intro st out evs h
    have doneCase : ∀ (r : Except PollError Task) evs1,
        pollIteration env taskId pat apiKey st = (.done r, evs1) →
        (∀ t, r = .ok t → fetchTaskResult (env.fetchResp taskId apiKey) = .ok t) →
        (∀ i tid tok, .statusCall i tid tok ∈ evs1 → tid = taskId) →
        (∀ tid tok, .fullFetch tid tok ∈ evs1 → tid = taskId ∧ tok = apiKey) →
        (∀ t, out = .ok t → fetchTaskResult (env.fetchResp taskId apiKey) = .ok t) ∧
        (∀ i tid tok, .statusCall i tid tok ∈ evs → tid = taskId) ∧
        (∀ tid tok, .fullFetch tid tok ∈ evs → tid = taskId ∧ tok = apiKey) := by
      intro r evs1 hpi hr h1 h2
      rw [pollLoop_done env taskId pat apiKey f st r evs1 hpi] at h
      obtain ⟨ho, he⟩ : r = out ∧ evs1 = evs := by
        constructor <;> [exact congrArg Prod.fst (Option.some.inj h);
          exact congrArg Prod.snd (Option.some.inj h)]
      subst ho
      subst he
      exact ⟨hr, h1, h2⟩
    have nextCase : ∀ st1 evs1,
        pollIteration env taskId pat apiKey st = (.next st1, evs1) →
        (∀ i tid tok, .statusCall i tid tok ∈ evs1 → tid = taskId) →
        (∀ tid tok, .fullFetch tid tok ∈ evs1 → tid = taskId ∧ tok = apiKey) →
        (∀ t, out = .ok t → fetchTaskResult (env.fetchResp taskId apiKey) = .ok t) ∧
        (∀ i tid tok, .statusCall i tid tok ∈ evs → tid = taskId) ∧
        (∀ tid tok, .fullFetch tid tok ∈ evs → tid = taskId ∧ tok = apiKey) := by
      intro st1 evs1 hpi h1 h2
      rw [pollLoop_next env taskId pat apiKey f st st1 evs1 hpi] at h
      cases hrec : pollLoop env taskId pat apiKey f st1 with
      | none =>
        rw [hrec] at h
        simp at h
      | some p =>
        rw [hrec] at h
        simp only [Option.map_some'] at h
        obtain ⟨ho, he⟩ : p.1 = out ∧ evs1 ++ p.2 = evs := by
          constructor <;> [exact congrArg Prod.fst (Option.some.inj h);
            exact congrArg Prod.snd (Option.some.inj h)]
        subst ho
        subst he
        obtain ⟨ih1, ih2, ih3⟩ := ih st1 p.1 p.2 (by rw [hrec])
        refine ⟨ih1, ?_, ?_⟩
        · intro i tid tok hm
          rcases List.mem_append.mp hm with hm | hm
          · exact h1 i tid tok hm
          · exact ih2 i tid tok hm
        · intro tid tok hm
          rcases List.mem_append.mp hm with hm | hm
          · exact h2 tid tok hm
          · exact ih3 tid tok hm
    by_cases ht : POLLING_TIMEOUT_MS ≤ st.elapsed
    · refine doneCase _ _ (pollIteration_timeout env taskId pat apiKey st ht) ?_ ?_ ?_
      · intro t hto
        cases hto
      · intro i tid tok hm
        simp at hm
      · intro tid tok hm
        simp at hm
    · rcases classify_cases (env.statusResp st.callIdx taskId
        (statusBearer pat apiKey st.useApiKeyFallback)) with ⟨s, hc⟩ | hc | ⟨er, hc⟩ | hc
      · cases s with
        | pending =>
          refine nextCase _ _ (by
            rw [pollIteration_pending env taskId pat apiKey st ht hc, sleepContinue_eq]) ?_ ?_
          · intro i tid tok hm
            simp at hm
            exact hm.2.1
          · intro tid tok hm
            simp at hm
        | completed =>
          refine doneCase _ _ (pollIteration_completed env taskId pat apiKey st ht hc) ?_ ?_ ?_
          · intro t hto
            rw [← hto]
          · intro i tid tok hm
            simp at hm
            exact hm.2.1
          · intro tid tok hm
            simp at hm
            exact ⟨hm.1, hm.2⟩
        | failed =>
          refine doneCase _ _ (pollIteration_failed env taskId pat apiKey st ht hc) ?_ ?_ ?_
          · intro t hto
            cases hto
          · intro i tid tok hm
            simp at hm
            exact hm.2.1
          · intro tid tok hm
            simp at hm
      · by_cases hp : patPresent pat = true ∧ st.useApiKeyFallback = false
        · refine nextCase _ _
            (pollIteration_unauthorized_fallback env taskId pat apiKey st ht hc hp.1 hp.2) ?_ ?_
          · intro i tid tok hm
            simp at hm
            exact hm.2.1
          · intro tid tok hm
            simp at hm
        · have hp' : patPresent pat = false ∨ st.useApiKeyFallback = true := by
            rcases Bool.eq_false_or_eq_true (patPresent pat) with hb | hb
            · rcases Bool.eq_false_or_eq_true st.useApiKeyFallback with hb2 | hb2
              · exact Or.inr hb2
              · exact absurd ⟨hb, hb2⟩ hp
            · exact Or.inl hb
          refine doneCase _ _
            (pollIteration_unauthorized_fail env taskId pat apiKey st ht hc hp') ?_ ?_ ?_
          · intro t hto
            cases hto
          · intro i tid tok hm
            simp at hm
            exact hm.2.1
          · intro tid tok hm
            simp at hm
      · by_cases hr : MAX_RETRY_COUNT ≤ st.retryCount + 1
        · refine doneCase _ _
            (pollIteration_retryable_cap env taskId pat apiKey st er ht hc hr) ?_ ?_ ?_
          · intro t hto
            cases hto
          · intro i tid tok hm
            simp at hm
            exact hm.2.1
          · intro tid tok hm
            simp at hm
        · refine nextCase _ _ (by
            rw [pollIteration_retryable_under env taskId pat apiKey st er ht hc hr,
              sleepContinue_eq]) ?_ ?_
          · intro i tid tok hm
            simp at hm
            exact hm.2.1
          · intro tid tok hm
            simp at hm
      · refine nextCase _ _ (by
          rw [pollIteration_nonretryable env taskId pat apiKey st none ht hc,
            sleepContinue_eq]) ?_ ?_
        · intro i tid tok hm
          simp at hm
          exact hm.2.1
        · intro tid tok hm
          simp at hm

/-! ## Claims -/

/-- C1: from any point where the consecutive-failure counter is zero (the
start of the loop, or just after a success), seven consecutive retryable
status-check failures (transport errors or 5xx) with no intervening success
make the resolution fail with `FetchError`, and the raised error carries the
error context of the most recent (seventh) underlying failure as its cause. -/
theorem C1_seven_retryable_failures_fetchError (env : PollEnv) (taskId : String)
    (pat : Option String) (apiKey : String) (e : Nat → Option String)
    (st : LoopState) (fuel : Nat)
    (hjit : ∀ i, env.jitter i ≤ 500)
    (hrc : st.retryCount = 0)
    (hresp : ∀ k, k < 7 → classifyStatusResponse (env.statusResp (st.callIdx + k) taskId
      (statusBearer pat apiKey st.useApiKeyFallback)) = .err false true (e (st.callIdx + k)))
    (helapsed : st.elapsed + 33000 < POLLING_TIMEOUT_MS)
    (hfuel : 7 ≤ fuel) :
    (pollLoop env taskId pat apiKey fuel st).map Prod.fst =
      some (.error (.fetchError (e (st.callIdx + 6)))) := by
  have hmax : MAX_RETRY_COUNT = 7 := rfl
  exact pollLoop_fetchError_of_retryable env taskId pat apiKey e hjit 6 st fuel
    (by omega) hresp (by omega) hfuel

/-- Witness for C1: seven thrown network errors from the start of a
resolution produce `FetchError` wrapping the last error. -/
theorem C1_seven_retryable_failures_fetchError_witness :
    (pollLoop envC1 "t1" none "key" 7 initState).map Prod.fst =
      some (.error (.fetchError (some "connection reset"))) :=
  C1_seven_retryable_failures_fetchError envC1 "t1" none "key"
    (fun _ => some "connection reset") initState 7
    (fun _ => Nat.zero_le 500) rfl (by decide) (by decide) (by decide)

/-- C2: on an unauthorized status-check outcome, if a public credential is
present and the fallback flag is unset, the iteration sets the flag and goes
straight to the next status check — the event list shows no sleep and the
elapsed time is unchanged — and that next check sends the private api key;
if the flag is already set or no public credential exists, the resolution
fails with `Unauthorized`; and no continuing iteration ever unsets the flag. -/
theorem C2_unauthorized_fallback_policy (env : PollEnv) (taskId : String)
    (pat : Option String) (apiKey : String) (st : LoopState)
    (ht : ¬ POLLING_TIMEOUT_MS ≤ st.elapsed)
    (hc : classifyStatusResponse (env.statusResp st.callIdx taskId
        (statusBearer pat apiKey st.useApiKeyFallback)) = .err true false none) :
    (patPresent pat = true → st.useApiKeyFallback = false →
      pollIteration env taskId pat apiKey st =
        (.next { st with useApiKeyFallback := true, callIdx := st.callIdx + 1 },
          [.statusCall st.callIdx taskId (statusBearer pat apiKey st.useApiKeyFallback)]) ∧
      statusBearer pat apiKey true = apiKey) ∧
    ((patPresent pat = false ∨ st.useApiKeyFallback = true) →
      pollIteration env taskId pat apiKey st =
        (.done (.error .unauthorized),
          [.statusCall st.callIdx taskId (statusBearer pat apiKey st.useApiKeyFallback)])) ∧
    (∀ st2 st' evs, pollIteration env taskId pat apiKey st2 = (.next st', evs) →
      st2.useApiKeyFallback = true → st'.useApiKeyFallback = true) :=
  ⟨fun hp hf =>
    ⟨pollIteration_unauthorized_fallback env taskId pat apiKey st ht hc hp hf, rfl⟩,
   fun hp => pollIteration_unauthorized_fail env taskId pat apiKey st ht hc hp,
   fun st2 st' evs hpi h2 =>
    pollIteration_next_fallback env taskId pat apiKey st2 st' evs hpi h2⟩

/-- Witness for C2: with a 401 answer and the public token "pub" in use, the
iteration sets the fallback flag and issues no sleep. -/
theorem C2_unauthorized_fallback_policy_witness :
    pollIteration envC2 "t1" (some "pub") "key" initState =
      (.next { initState with useApiKeyFallback := true, callIdx := 1 },
        [.statusCall 0 "t1" "pub"]) :=
  ((C2_unauthorized_fallback_policy envC2 "t1" (some "pub") "key" initState
    (by decide) (by decide)).1 rfl rfl).1

/-- C3: (a) once the elapsed time at the top of an iteration reaches the
5-minute budget, the iteration fails with `Timeout` and its event list is
empty — no further status check is issued; (b) every sleep ever emitted by
an iteration lasts exactly min(base + jitter, remaining-time-to-deadline),
so the clock after the sleep never passes the deadline; (c) a task whose
status checks always answer pending makes the resolution fail with
`Timeout`. -/
theorem C3_timeout_budget :
    (∀ (env : PollEnv) (taskId : String) (pat : Option String) (apiKey : String)
      (st : LoopState), POLLING_TIMEOUT_MS ≤ st.elapsed →
        pollIteration env taskId pat apiKey st = (.done (.error .timeout), [])) ∧
    (∀ (env : PollEnv) (taskId : String) (pat : Option String) (apiKey : String)
      (st : LoopState) (w : Nat),
        .sleep w ∈ (pollIteration env taskId pat apiKey st).2 →
        w = min ((if st.elapsed < FAST_POLLING_DURATION_MS then FAST_POLLING_INTERVAL_MS
          else SLOW_POLLING_INTERVAL_MS) + env.jitter st.callIdx)
          (POLLING_TIMEOUT_MS - st.elapsed) ∧
        st.elapsed + w ≤ POLLING_TIMEOUT_MS) ∧
    (∀ (env : PollEnv) (taskId : String) (pat : Option String) (apiKey : String)
      (fuel : Nat),
        (∀ i tok, classifyStatusResponse (env.statusResp i taskId tok) = .ok .pending) →
        121 ≤ fuel →
        (pollUntilCompleted env taskId pat apiKey fuel).map Prod.fst =
          some (.error .timeout)) := by
  refine ⟨fun env taskId pat apiKey st ht =>
      pollIteration_timeout env taskId pat apiKey st ht, ?_, ?_⟩
  · intro env taskId pat apiKey st w hm
    have hsw : ∀ st1 : LoopState, st1.elapsed = st.elapsed → st1.callIdx = st.callIdx →
        w = sleepWait env st1 →
        w = min ((if st.elapsed < FAST_POLLING_DURATION_MS then FAST_POLLING_INTERVAL_MS
          else SLOW_POLLING_INTERVAL_MS) + env.jitter st.callIdx)
          (POLLING_TIMEOUT_MS - st.elapsed) := by
      intro st1 h1 h2 h3
      rw [h3, sleepWait_eq, h1, h2]
    by_cases ht : POLLING_TIMEOUT_MS ≤ st.elapsed
    · rw [pollIteration_timeout env taskId pat apiKey st ht] at hm
      simp at hm
    · have hrem : st.elapsed + sleepWait env st ≤ POLLING_TIMEOUT_MS :=
        sleepWait_le_remaining env st (by omega)
      rcases classify_cases (env.statusResp st.callIdx taskId
        (statusBearer pat apiKey st.useApiKeyFallback)) with ⟨s, hc⟩ | hc | ⟨er, hc⟩ | hc
      · cases s with
        | pending =>
          rw [pollIteration_pending env taskId pat apiKey st ht hc, sleepContinue_eq] at hm
          simp at hm
          refine ⟨hsw _ rfl rfl hm, ?_⟩
          rw [hm]
          exact hrem
        | completed =>
          rw [pollIteration_completed env taskId pat apiKey st ht hc] at hm
          simp at hm
        | failed =>
          rw [pollIteration_failed env taskId pat apiKey st ht hc] at hm
          simp at hm
      · by_cases hp : patPresent pat = true ∧ st.useApiKeyFallback = false
        · rw [pollIteration_unauthorized_fallback env taskId pat apiKey st ht hc
            hp.1 hp.2] at hm
          simp at hm
        · have hp' : patPresent pat = false ∨ st.useApiKeyFallback = true := by
            rcases Bool.eq_false_or_eq_true (patPresent pat) with hb | hb
            · rcases Bool.eq_false_or_eq_true st.useApiKeyFallback with hb2 | hb2
              · exact Or.inr hb2
              · exact absurd ⟨hb, hb2⟩ hp
            · exact Or.inl hb
          rw [pollIteration_unauthorized_fail env taskId pat apiKey st ht hc hp'] at hm
          simp at hm
      · by_cases hr : MAX_RETRY_COUNT ≤ st.retryCount + 1
        · rw [pollIteration_retryable_cap env taskId pat apiKey st er ht hc hr] at hm
          simp at hm
        · rw [pollIteration_retryable_under env taskId pat apiKey st er ht hc hr,
            sleepContinue_eq] at hm
          simp at hm
          refine ⟨hsw _ rfl rfl hm, ?_⟩
          rw [hm]
          exact hrem
      · rw [pollIteration_nonretryable env taskId pat apiKey st none ht hc,
          sleepContinue_eq] at hm
        simp at hm
        refine ⟨hsw _ rfl rfl hm, ?_⟩
        rw [hm]
        exact hrem
  · intro env taskId pat apiKey fuel hpend hfuel
    have e1 : FAST_POLLING_INTERVAL_MS = 2500 := rfl
    have e3 : POLLING_TIMEOUT_MS = 300000 := rfl
    exact pollLoop_timeout_of_continue env taskId pat apiKey
      (fun i tok => Or.inl (hpend i tok)) fuel initState (by omega)
      (by simp only [initState, e1, e3]; omega)

/-- Witness for C3: an always-pending task times out. -/
theorem C3_timeout_budget_witness :
    (pollUntilCompleted envPend "t1" none "key" 121).map Prod.fst =
      some (.error .timeout) :=
  C3_timeout_budget.2.2 envPend "t1" none "key" 121 (fun _ _ => rfl) (Nat.le_refl 121)

/-- C4: a successful status check that leaves the loop running resets the
consecutive-failure counter to zero (on a terminal success the source also
resets it, but the loop ends before the counter can be observed again);
consequently the 5-failures / 1-pending-success / 5-failures / completed
scenario resolves successfully and never raises `FetchError`. -/
theorem C4_counter_reset_on_success (env : PollEnv) (taskId : String)
    (pat : Option String) (apiKey : String) (st : LoopState)
    (ht : ¬ POLLING_TIMEOUT_MS ≤ st.elapsed)
    (hc : classifyStatusResponse (env.statusResp st.callIdx taskId
        (statusBearer pat apiKey st.useApiKeyFallback)) = .ok .pending) :
    pollIteration env taskId pat apiKey st =
      sleepContinue env { st with retryCount := 0 }
        [.statusCall st.callIdx taskId (statusBearer pat apiKey st.useApiKeyFallback)] ∧
    (pollUntilCompleted envC4 "t1" none "key" 20).map Prod.fst =
      some (.ok ⟨⟨"t1", .completed, "img"⟩⟩) :=
  ⟨pollIteration_pending env taskId pat apiKey st ht hc, by decide⟩

/-- Witness for C4: a pending answer at the first iteration continues the
loop with the counter reset, and the counter-reset scenario resolves. -/
theorem C4_counter_reset_on_success_witness :
    pollIteration envPend "t1" none "key" initState =
      sleepContinue envPend { initState with retryCount := 0 }
        [.statusCall 0 "t1" "key"] ∧
    (pollUntilCompleted envC4 "t1" none "key" 20).map Prod.fst =
      some (.ok ⟨⟨"t1", .completed, "img"⟩⟩) :=
  C4_counter_reset_on_success envPend "t1" none "key" initState (by decide) (by decide)

/-- C5: resolution requests are memoized: the first request on a fresh
handle runs the polling routine and stores its outcome in the promise cell;
any request on a filled cell returns exactly the stored outcome, issues no
events at all (hence no network calls), and leaves the cell unchanged — so
the polling routine runs at most once per handle and repeated requests
observe the same outcome. -/
theorem C5_memoized_resolution (env : PollEnv) (taskId : String)
    (pat : Option String) (apiKey : String) (fuel : Nat) :
    (toTask env taskId pat apiKey fuel ⟨none⟩).2.2 =
      ⟨some (pollUntilCompleted env taskId pat apiKey fuel)⟩ ∧
    (toTask env taskId pat apiKey fuel ⟨none⟩).1 =
      pollUntilCompleted env taskId pat apiKey fuel ∧
    (∀ p, toTask env taskId pat apiKey fuel ⟨some p⟩ = (p, [], ⟨some p⟩)) ∧
    toTask env taskId pat apiKey fuel ((toTask env taskId pat apiKey fuel ⟨none⟩).2.2) =
      ((toTask env taskId pat apiKey fuel ⟨none⟩).1, [],
        (toTask env taskId pat apiKey fuel ⟨none⟩).2.2) :=
  ⟨rfl, rfl, fun _ => rfl, rfl⟩

/-- C6: a `failed` lifecycle status ends the resolution immediately with
`TaskFailed`: whatever fuel remains, the loop returns right away, and the
whole remaining trace is the one status call — no full fetch, no sleep, no
further status check. -/
theorem C6_failed_immediate_taskFailed (env : PollEnv) (taskId : String)
    (pat : Option String) (apiKey : String) (fuel : Nat) (st : LoopState)
    (ht : ¬ POLLING_TIMEOUT_MS ≤ st.elapsed)
    (hc : classifyStatusResponse (env.statusResp st.callIdx taskId
        (statusBearer pat apiKey st.useApiKeyFallback)) = .ok .failed) :
    pollLoop env taskId pat apiKey (fuel + 1) st =
      some (.error .taskFailed,
        [.statusCall st.callIdx taskId (statusBearer pat apiKey st.useApiKeyFallback)]) :=
  pollLoop_done env taskId pat apiKey fuel st _ _
    (pollIteration_failed env taskId pat apiKey st ht hc)

/-- Witness for C6: a failed status at the first check ends with TaskFailed
after exactly one status call. -/
theorem C6_failed_immediate_taskFailed_witness :
    pollLoop envC6 "t1" none "key" 9 initState =
      some (.error .taskFailed, [.statusCall 0 "t1" "key"]) :=
  C6_failed_immediate_taskFailed envC6 "t1" none "key" 8 initState (by decide) (by decide)

/-- C7: after a `completed` status the loop issues the full fetch and
returns its classification: a 401, 403 or 404 response gives `Unauthorized`,
any other non-success gives `TaskFetchError` carrying the status code, and a
success returns the fetched record wrapped as the completed task, ending the
loop. -/
theorem C7_full_fetch_classification (env : PollEnv) (taskId : String)
    (pat : Option String) (apiKey : String) (fuel : Nat) (st : LoopState)
    (r : GetResp)
    (ht : ¬ POLLING_TIMEOUT_MS ≤ st.elapsed)
    (hc : classifyStatusResponse (env.statusResp st.callIdx taskId
        (statusBearer pat apiKey st.useApiKeyFallback)) = .ok .completed) :
    (r.ok = false → (r.status = 401 ∨ r.status = 403 ∨ r.status = 404) →
      fetchTaskResult r = .error .unauthorized) ∧
    (r.ok = false → r.status ≠ 401 → r.status ≠ 403 → r.status ≠ 404 →
      fetchTaskResult r = .error (.taskFetchError r.status)) ∧
    (r.ok = true → fetchTaskResult r = .ok ⟨r.data⟩) ∧
    pollLoop env taskId pat apiKey (fuel + 1) st =
      some (fetchTaskResult (env.fetchResp taskId apiKey),
        [.statusCall st.callIdx taskId (statusBearer pat apiKey st.useApiKeyFallback),
         .fullFetch taskId apiKey]) := by
  refine ⟨?_, ?_, ?_, ?_⟩
  · intro h1 h2
    rcases h2 with h2 | h2 | h2 <;> simp [fetchTaskResult, h1, h2]
  · intro h1 h2 h3 h4
    simp [fetchTaskResult, h1, h2, h3, h4]
  · intro h1
    simp [fetchTaskResult, h1]
  · exact pollLoop_done env taskId pat apiKey fuel st _ _
      (pollIteration_completed env taskId pat apiKey st ht hc)

/-- Witness for C7: a 404 on the full fetch after a completed status yields
Unauthorized, not TaskFetchError. -/
theorem C7_full_fetch_classification_witness :
    fetchTaskResult ⟨false, 404, dC7⟩ = .error .unauthorized ∧
    pollLoop envC7 "t1" none "key" 3 initState =
      some (.error .unauthorized, [.statusCall 0 "t1" "key", .fullFetch "t1" "key"]) := by
  have h := C7_full_fetch_classification envC7 "t1" none "key" 2 initState
    ⟨false, 404, dC7⟩ (by decide) (by decide)
  refine ⟨h.1 rfl (Or.inr (Or.inr rfl)), ?_⟩
  rw [h.2.2.2]
  rfl

/-- C8: a non-success status-check response that is neither 401/403/404 nor
≥ 500 (for example HTTP 400) classifies as non-retryable and
non-unauthorized; the iteration then sleeps and continues with the counter
and all other state untouched, and a task that persistently answers such a
status can only end with `Timeout`. -/
theorem C8_other_4xx_continues (env : PollEnv) (taskId : String)
    (pat : Option String) (apiKey : String) (st : LoopState)
    (ht : ¬ POLLING_TIMEOUT_MS ≤ st.elapsed)
    (hc : classifyStatusResponse (env.statusResp st.callIdx taskId
        (statusBearer pat apiKey st.useApiKeyFallback)) = .err false false none) :
    (∀ (ok : Bool) (status : Nat) (s : TaskStatus), ok = false →
      status ≠ 401 → status ≠ 403 → status ≠ 404 → status < 500 →
      classifyStatusResponse (.resp ok status s) = .err false false none) ∧
    pollIteration env taskId pat apiKey st =
      sleepContinue env st
        [.statusCall st.callIdx taskId (statusBearer pat apiKey st.useApiKeyFallback)] ∧
    ((∀ i tok, classifyStatusResponse (env.statusResp i taskId tok) =
        .err false false none) →
      ∀ fuel, 121 ≤ fuel →
        (pollUntilCompleted env taskId pat apiKey fuel).map Prod.fst =
          some (.error .timeout)) := by
  refine ⟨?_, pollIteration_nonretryable env taskId pat apiKey st none ht hc, ?_⟩
  · intro ok status s h1 h2 h3 h4 h5
    have h6 : ¬ 500 ≤ status := by omega
    simp [classifyStatusResponse, h1, h2, h3, h4, h6]
  · intro henv fuel hfuel
    have e1 : FAST_POLLING_INTERVAL_MS = 2500 := rfl
    have e3 : POLLING_TIMEOUT_MS = 300000 := rfl
    exact pollLoop_timeout_of_continue env taskId pat apiKey
      (fun i tok => Or.inr (henv i tok)) fuel initState (by omega)
      (by simp only [initState, e1, e3]; omega)

/-- Witness for C8: a persistent 400 answer sleeps and continues at the
first iteration and ends in Timeout. -/
theorem C8_other_4xx_continues_witness :
    pollIteration env400 "t1" none "key" initState =
      sleepContinue env400 initState [.statusCall 0 "t1" "key"] ∧
    (pollUntilCompleted env400 "t1" none "key" 121).map Prod.fst =
      some (.error .timeout) := by
  have h := C8_other_4xx_continues env400 "t1" none "key" initState (by decide) (by decide)
  exact ⟨h.2.1, h.2.2 (fun _ _ => rfl) 121 (Nat.le_refl 121)⟩

/-- C9: when resolution succeeds — a run of status checks ending in
`completed` followed by a successful full fetch — the returned completed
task wraps exactly the record the details endpoint served for the polled
task id; as the details endpoint serves the record of the requested id, the
returned task's id equals the task id used for every status check of the
run. -/
theorem C9_resolved_id_matches (env : PollEnv) (taskId : String)
    (pat : Option String) (apiKey : String) (fuel : Nat) (st : LoopState)
    (out : Except PollError Task) (evs : List Event) (t : Task)
    (hrun : pollLoop env taskId pat apiKey fuel st = some (out, evs))
    (hout : out = .ok t)
    (hcontract : ∀ tok, (env.fetchResp taskId tok).ok = true →
      (env.fetchResp taskId tok).data.id = taskId) :
    t.id = taskId ∧
    (∀ i tid tok, .statusCall i tid tok ∈ evs → tid = taskId) := by
  obtain ⟨h1, h2, _⟩ := pollLoop_trace_inv env taskId pat apiKey fuel st out evs hrun
  obtain ⟨hok, hdata⟩ := fetchTaskResult_ok _ _ (h1 t hout)
  refine ⟨?_, h2⟩
  rw [hdata]
  exact hcontract apiKey hok

/-- Witness for C9 on a one-step completed run. -/
theorem C9_resolved_id_matches_witness :
    Task.id ⟨⟨"t42", .completed, "p"⟩⟩ = "t42" := by
  have h := C9_resolved_id_matches envC9 "t42" none "key" 1 initState
    (.ok ⟨⟨"t42", .completed, "p"⟩⟩)
    [.statusCall 0 "t42" "key", .fullFetch "t42" "key"]
    ⟨⟨"t42", .completed, "p"⟩⟩ (by decide) rfl (fun _ _ => rfl)
  exact h.1

/-- C10: the full fetch after a completed status is always issued with the
client api key — `client.get` is called with no access-token override, so
the auth header falls back to the api key, never the public token; hence a
handle whose public token passes status polling but whose api key is
rejected by the details endpoint fails with `Unauthorized` even though
polling reached `completed` (concrete third conjunct). -/
theorem C10_full_fetch_uses_api_key (env : PollEnv) (taskId : String)
    (pat : Option String) (apiKey : String) (fuel : Nat) (st : LoopState)
    (out : Except PollError Task) (evs : List Event)
    (hrun : pollLoop env taskId pat apiKey fuel st = some (out, evs)) :
    getAuthHeaderToken apiKey none = apiKey ∧
    (∀ tid tok, .fullFetch tid tok ∈ evs → tok = apiKey) ∧
    (pollLoop envC10 "t1" (some "pub") "key" 3 initState).map Prod.fst =
      some (.error .unauthorized) := by
  obtain ⟨_, _, h3⟩ := pollLoop_trace_inv env taskId pat apiKey fuel st out evs hrun
  exact ⟨rfl, fun tid tok hm => (h3 tid tok hm).2, by decide⟩

/-- Witness for C10: valid public token, rejected api key. -/
theorem C10_full_fetch_uses_api_key_witness :
    (pollLoop envC10 "t1" (some "pub") "key" 3 initState).map Prod.fst =
      some (.error .unauthorized) := by
  have h := C10_full_fetch_uses_api_key envC9 "t42" none "key" 1 initState
    (.ok ⟨⟨"t42", .completed, "p"⟩⟩)
    [.statusCall 0 "t42" "key", .fullFetch "t42" "key"] (by decide)
  exact h.2.2

end MynthSDK
